import Mathlib

/-!
Shallow embedding of the OPL DNS plugin for BIND 9
(src/include/opl_plugin.h, src/src/opl_plugin.c, src/src/bind_interface.c).

Modelling conventions:
* `isc_result_t` codes are an inductive `IscResult` restricted to the codes
  the sources use.
* Memory allocation (`malloc`, `strdup`, `isc_mem_get`,
  `dns_message_gettemprdataset`) is modelled as always succeeding; the
  allocation-failure branches return early with NOMEMORY/FAILURE and are not
  on any claim's path.
* The network interaction of `opl_check_domain` (curl) is a parameter
  `NetOutcome`: either a transport-level error (`curl_easy_perform` returning
  a code other than CURLE_OK, which includes timeouts) or a delivered HTTP
  response carrying a status code and a body.  The body is `Option JVal`:
  `none` stands for a byte string that `json_tokener_parse` rejects, `some j`
  for one that parses to the JSON value `j`.  Each model function also
  reports `netCalls`, the number of times `curl_easy_perform` runs, so that
  claims about "no network request" are statements the model can decide.
* JSON values are `JVal`; `json_object_object_get_ex` on a non-object returns
  false (here: `none`).  `json_object_get_string` is modelled on the
  string/null shapes the blocklist API uses (json-c would stringify numbers,
  which the claims never exercise).
* C strings are Lean `String`s (never NULL); the NULL-argument guards of the
  C functions are therefore not reachable in the model.
* `sscanf(s, "%u.%u.%u.%u", ...)` is modelled per directive: `%u` skips
  leading white space and then reads a maximal non-empty digit run (value
  taken mod 2^32); the literal `.` must match the next input character
  exactly.  Sign prefixes and out-of-range wrapping of scanf are not
  exercised by any input in this development.
-/

/-- The `isc_result_t` codes used by the plugin sources. -/
inductive IscResult where
  | SUCCESS
  | NOTFOUND
  | FAILURE
  | INVALIDARG
  | NOMEMORY
  | NOSPACE
deriving DecidableEq, Repr

/-- JSON values as parsed by json-c, restricted to the shapes the plugin
inspects: strings, arrays, objects, and a catch-all `other` for numbers,
booleans and null (whose field lookups and string reads fail). -/
inductive JVal where
  | str (s : String)
  | arr (elems : List JVal)
  | obj (fields : List (String × JVal))
  | other

/-- `json_object_object_get_ex(obj, key, &val)`: field lookup, `none` when the
value is not an object or the key is absent. -/
def json_get_field (v : JVal) (key : String) : Option JVal :=
  match v with
  | .obj fields => lookupField fields
  | _ => none
where
  lookupField : List (String × JVal) → Option JVal
    | [] => none
    | (k, x) :: rest => if k = key then some x else lookupField rest

/-- `json_object_get_string` on the shapes the API uses: a string reads back
as itself, null (and the other non-string shapes modelled by `other`, plus
arrays/objects) yields no usable C string here. -/
def json_get_string : JVal → Option String
  | .str s => some s
  | _ => none

/-- Field lookup followed by string extraction (the
`json_object_object_get_ex` + `json_object_get_string` pairs at
opl_plugin.c:206-211). -/
def json_get_str_field (v : JVal) (key : String) : Option String :=
  (json_get_field v key).bind json_get_string

/-- `strstr(hay, needle) != NULL`: exact, case-sensitive substring
containment, scanning the haystack position by position as strstr does. -/
def strstr_contains (hay needle : String) : Bool :=
  scanFrom hay.data
where
  scanFrom : List Char → Bool
    | [] => needle.data.isPrefixOf ([] : List Char)
    | c :: rest => needle.data.isPrefixOf (c :: rest) || scanFrom rest

/-- Configuration structure `opl_config_t` (opl_plugin.h:20-26).  The C
`int` fields only ever hold the non-negative defaults, so they are `Nat`;
`enabled` is an `int` used as a boolean. -/
structure OplConfig where
  api_endpoint : String
  block_page_ip : String
  api_timeout : Nat
  cache_ttl : Nat
  enabled : Bool
deriving DecidableEq, Repr

/-- Plugin context `opl_context_t` (opl_plugin.h:29-33).  The `void *cache`
member is kept as `Option Unit` (NULL = `none`); no code in the sources ever
reads or writes it after the zeroing `memset` in `opl_plugin_init`. -/
structure OplContext where
  config : OplConfig
  cache : Option Unit
deriving DecidableEq, Repr

def DEFAULT_API_ENDPOINT : String := "https://api.onlinepicketline.org/api/blocklist"
def DEFAULT_BLOCK_PAGE_IP : String := "127.0.0.1"
def DEFAULT_API_TIMEOUT : Nat := 5
def DEFAULT_CACHE_TTL : Nat := 300

/-- `opl_plugin_init` (opl_plugin.c:62-107) on its success path: the context
is zeroed and filled with the compiled-in defaults.  The `config_file`
argument is accepted but never read (the body only carries the comment
`TODO: Parse config file if provided`). -/
def opl_plugin_init (config_file : Option String) : OplContext :=
  { config :=
      { api_endpoint := DEFAULT_API_ENDPOINT
        block_page_ip := DEFAULT_BLOCK_PAGE_IP
        api_timeout := DEFAULT_API_TIMEOUT
        cache_ttl := DEFAULT_CACHE_TTL
        enabled := true }
    cache := none }

/-- An HTTP response as delivered by curl: status code plus body; the body is
`none` when `json_tokener_parse` would reject it. -/
structure HttpResponse where
  status : Nat
  body : Option JVal

/-- Outcome of the curl round trip in `opl_check_domain`:
`transportError` is `curl_easy_perform` returning anything but CURLE_OK
(timeouts included); `response` is a delivered reply. -/
inductive NetOutcome where
  | transportError
  | response (r : HttpResponse)

/-- Result triple of `opl_check_domain`: the returned `isc_result_t`, the
string stored through `dispute_info` (if any), and how many times
`curl_easy_perform` ran during the call. -/
structure CheckOutcome where
  result : IscResult
  dispute_info : Option String
  netCalls : Nat
deriving DecidableEq, Repr

/-- The condition at opl_plugin.c:199-201: the entry has a `url` field whose
string value contains the queried domain as a `strstr` substring. -/
def entry_matches (domain : String) (e : JVal) : Bool :=
  match json_get_field e "url" with
  | some url_obj =>
    match json_get_string url_obj with
    | some url_str => strstr_contains url_str domain
    | none => false
  | none => false

/-- The info string composed at opl_plugin.c:204-219:
`snprintf(info, info_len, "%s: %s", employer_str ? employer_str : "",
reason_str ? reason_str : "")`.  The buffer is one byte larger than the
formatted string needs, so no truncation occurs. -/
def compose_dispute_info (e : JVal) : String :=
  ((json_get_str_field e "employer").getD "") ++ ": "
    ++ ((json_get_str_field e "reason").getD "")

/-- The scanning loop at opl_plugin.c:195-225: walk the blocklist array in
order; at the first entry whose `url` contains the domain, set
`is_disputed = 1`, compose the info string, and `break`. -/
def scan_blocklist (domain : String) : List JVal → Bool × Option String
  | [] => (false, none)
  | e :: rest =>
    if entry_matches domain e then (true, some (compose_dispute_info e))
    else scan_blocklist domain rest

/-- `opl_check_domain` (opl_plugin.c:134-231).  Control flow in source
order: the disabled/NULL guard returns ISC_R_INVALIDARG before anything
else; the request URL `<endpoint>?format=json` must fit the 1024-byte
buffer or the call fails before any network activity; then exactly one
`curl_easy_perform` runs; a transport error or an unparsable body is
ISC_R_FAILURE; otherwise the `blocklist` array (when present) is scanned
and the call returns ISC_R_SUCCESS (disputed) or ISC_R_NOTFOUND.  The HTTP
status code of a delivered response is never inspected. -/
def opl_check_domain (ctx : OplContext) (net : NetOutcome) (domain : String) :
    CheckOutcome :=
  if ctx.config.enabled = false then ⟨.INVALIDARG, none, 0⟩
  else if 1024 ≤ (ctx.config.api_endpoint ++ "?format=json").length then
    ⟨.FAILURE, none, 0⟩
  else
    match net with
    | .transportError => ⟨.FAILURE, none, 1⟩
    | .response r =>
      match r.body with
      | none => ⟨.FAILURE, none, 1⟩
      | some root =>
        match json_get_field root "blocklist" with
        | some (JVal.arr entries) =>
          match scan_blocklist domain entries with
          | (true, info) => ⟨.SUCCESS, info, 1⟩
          | (false, _) => ⟨.NOTFOUND, none, 1⟩
        | _ => ⟨.NOTFOUND, none, 1⟩

/-- White-space test of scanf's `%u` directive (C `isspace`). -/
def isSpaceChar (c : Char) : Bool :=
  c = ' ' || c = '\t' || c = '\n' || c = '\x0b' || c = '\x0c' || c = '\r'

/-- One `%u` directive of `sscanf`: skip white space, then read a maximal
non-empty digit run; its value is taken mod 2^32 (`unsigned int`). -/
def scan_u (cs : List Char) : Option (Nat × List Char) :=
  let cs := cs.dropWhile isSpaceChar
  let ds := cs.takeWhile Char.isDigit
  if ds.isEmpty then none
  else some ((ds.foldl (fun a c => a * 10 + (c.toNat - 48)) 0) % 2 ^ 32,
    cs.dropWhile Char.isDigit)

/-- `sscanf(s, "%u.%u.%u.%u", &a, &b, &c, &d) == 4`: four `%u` reads
separated by literal dots, each dot matching the next character exactly.
Input remaining after the fourth number is ignored, as scanf does. -/
def sscanf_u_dot4 (cs : List Char) : Option (Nat × Nat × Nat × Nat) :=
  match scan_u cs with
  | none => none
  | some (a, r1) =>
    match r1 with
    | '.' :: r2 =>
      match scan_u r2 with
      | none => none
      | some (b, r3) =>
        match r3 with
        | '.' :: r4 =>
          match scan_u r4 with
          | none => none
          | some (c, r5) =>
            match r5 with
            | '.' :: r6 =>
              match scan_u r6 with
              | none => none
              | some (d, _) => some (a, b, c, d)
            | _ => none
        | _ => none
    | _ => none

/-- `parse_ipv4` (opl_plugin.c:234-251): sscanf must convert four numbers,
each at most 255; `none` models the -1 failure return, `some` the four
output bytes. -/
def parse_ipv4 (ip_str : String) : Option (Nat × Nat × Nat × Nat) :=
  match sscanf_u_dot4 ip_str.data with
  | none => none
  | some (a, b, c, d) =>
    if a > 255 || b > 255 || c > 255 || d > 255 then none
    else some (a, b, c, d)

/-- DNS classes relevant to the claims (`dns_rdataclass_t`). -/
inductive DnsClass where
  | IN
  | CH
  | HS
  | ANY
deriving DecidableEq, Repr

/-- One entry of a message's question section: owner name in its text form
(as `dns_name_totext` with `omit_final_dot = false` renders it) and class. -/
structure Question where
  qname : String
  qclass : DnsClass
deriving DecidableEq, Repr

/-- An answer-section A record: owner name and the four rdata bytes. -/
structure ARecord where
  owner : String
  rdata : List Nat
deriving DecidableEq, Repr

/-- A DNS message as the plugin sees it: question section and answer
section. -/
structure DnsMessage where
  question : List Question
  answer : List ARecord
deriving DecidableEq, Repr

/-- `opl_modify_response` (opl_plugin.c:260-335).  It validates arguments,
parses the configured block-page IP (ISC_R_FAILURE when `parse_ipv4`
rejects it), requires a first name in the question section (ISC_R_FAILURE
otherwise), obtains a temporary rdataset and fills a local `dns_rdata_t`
with the four IP bytes — and then, as its own comment block states, returns
ISC_R_SUCCESS without installing anything: the message, in particular its
answer section, is returned unchanged on every path.  The query class is
never read. -/
def opl_modify_response (ctx : OplContext) (message : DnsMessage)
    (domain : String) : IscResult × DnsMessage :=
  match parse_ipv4 ctx.config.block_page_ip with
  | none => (.FAILURE, message)
  | some _ =>
    match message.question with
    | [] => (.FAILURE, message)
    | _ :: _ => (.SUCCESS, message)

/-- The hook return values of `ns_hookresult_t` that the source can produce:
`opl_query_respond_any` returns NS_HOOK_CONTINUE on every path. -/
inductive HookResult where
  | CONTINUE
deriving DecidableEq, Repr

/-- Everything observable about one run of the hook: its return value, the
(possibly modified) message, the value written through `resultp` (`none` =
left untouched), and the number of network calls performed. -/
structure HookOutcome where
  hres : HookResult
  message : DnsMessage
  resultp : Option IscResult
  netCalls : Nat
deriving DecidableEq, Repr

/-- `opl_query_respond_any` (bind_interface.c:60-116).  In source order: if
the plugin context is NULL or disabled, continue untouched; extract the
first question name (continue untouched when absent); render it to text
(`dns_name_to_string` fails with ISC_R_NOSPACE when the text fills the
1025-byte buffer, i.e. exceeds 1024 characters — continue untouched); call
`opl_check_domain`; only on ISC_R_SUCCESS call `opl_modify_response` and set
`*resultp = ISC_R_SUCCESS`; always return NS_HOOK_CONTINUE. -/
def opl_query_respond_any (plugin_ctx : Option OplContext) (net : NetOutcome)
    (message : DnsMessage) : HookOutcome :=
  match plugin_ctx with
  | none => ⟨.CONTINUE, message, none, 0⟩
  | some ctx =>
    if ctx.config.enabled = false then ⟨.CONTINUE, message, none, 0⟩
    else
      match message.question with
      | [] => ⟨.CONTINUE, message, none, 0⟩
      | q :: _ =>
        if 1024 < q.qname.length then ⟨.CONTINUE, message, none, 0⟩
        else
          let chk := opl_check_domain ctx net q.qname
          if chk.result = .SUCCESS then
            ⟨.CONTINUE, (opl_modify_response ctx message q.qname).2,
              some .SUCCESS, chk.netCalls⟩
          else ⟨.CONTINUE, message, none, chk.netCalls⟩

/-- A lookup failure as §4.1/§7 of the spec classifies them, at the points
where the code can exhibit one: a transport-level curl error (timeouts
included) or a body the JSON parser rejects. -/
def isLookupFailure : NetOutcome → Bool
  | .transportError => true
  | .response r => r.body.isNone

/-- A delivered response whose blocklist is empty: the canonical
"Clear" (no match) network outcome, used to compare failure handling
against Clear handling. -/
def clear_net : NetOutcome :=
  .response ⟨200, some (.obj [("blocklist", .arr [])])⟩

/-- The spec's Verdict type (§3): `Clear`, `Disputed` (detail elided here),
or `Unknown`. -/
inductive Verdict where
  | Clear
  | Disputed
  | Unknown
deriving DecidableEq, Repr

/-- How the spec's Verdict reads off an `opl_check_domain` result code:
ISC_R_SUCCESS signals a match (Disputed), ISC_R_NOTFOUND a completed
no-match lookup (Clear), and every other code a failed or refused lookup
(Unknown).  This mapping follows the spec's words and is the comparison
point for claims phrased in Verdict terms. -/
def spec_verdict_of_result : IscResult → Verdict
  | .SUCCESS => .Disputed
  | .NOTFOUND => .Clear
  | _ => .Unknown

/-- Strict dotted-quad parsing as the spec words it (§4.4): exactly four
octets separated by single dots, nothing more, each octet a non-empty digit
string with value 0-255.  This follows the spec's words and is the
comparison point for the parsing the code actually does. -/
def spec_strict_dotted_quad (s : String) : Bool :=
  match splitOnDot s.data with
  | [a, b, c, d] => isOctet a && isOctet b && isOctet c && isOctet d
  | _ => false
where
  splitOnDot : List Char → List (List Char)
    | [] => [[]]
    | c :: rest =>
      if c = '.' then [] :: splitOnDot rest
      else
        match splitOnDot rest with
        | [] => [[c]]
        | h :: t => (c :: h) :: t
  isOctet (cs : List Char) : Bool :=
    !cs.isEmpty && cs.all Char.isDigit
      && (cs.foldl (fun a c => a * 10 + (c.toNat - 48)) 0) ≤ 255

/-- The plugin context as `plugin_register` builds it. -/
def opl_default_ctx : OplContext := opl_plugin_init none

/-- Context with `enabled = false` (the only non-default configuration the
disabled-check claims need; nothing in the sources ever constructs it, but
`opl_check_domain` guards on it). -/
def opl_disabled_ctx : OplContext :=
  { opl_default_ctx with
      config := { opl_default_ctx.config with enabled := false } }

/-- Context whose block-page IP carries trailing garbage after a valid
dotted quad: strict parsing rejects it, `sscanf` accepts it. -/
def ctx_bad_ip : OplContext :=
  { opl_default_ctx with
      config := { opl_default_ctx.config with block_page_ip := "1.2.3.4x" } }

/-- Context with the spec's out-of-range example IP `999.1.1.1`, which both
strict parsing and `parse_ipv4` reject. -/
def ctx_999 : OplContext :=
  { opl_default_ctx with
      config := { opl_default_ctx.config with block_page_ip := "999.1.1.1" } }

/-- A response message for `example.com.`: one IN question and the genuine
upstream answer record. -/
def c1_msg : DnsMessage :=
  { question := [{ qname := "example.com.", qclass := .IN }]
    answer := [{ owner := "example.com.", rdata := [93, 184, 216, 34] }] }

/-- A response message whose question class is CH, not IN. -/
def msg_ch : DnsMessage :=
  { question := [{ qname := "example.com.", qclass := .CH }], answer := [] }

/-- A parsed blocklist body with one entry whose `url` contains
`example.com` and which carries no employer/reason fields. -/
def c5_root : JVal :=
  .obj [("blocklist", .arr [.obj [("url", .str "http://example.com/x")]])]

/-- A delivered 200 response whose single blocklist entry's url is the
lower-case `http://example.com/`. -/
def c7_net : NetOutcome :=
  .response ⟨200, some (.obj [("blocklist",
    .arr [.obj [("url", .str "http://example.com/")]])])⟩

/-- A blocklist entry for `example.com` carrying employer `ACME` and reason
`wage dispute`. -/
def acme_entry : JVal :=
  .obj [("url", .str "https://shop.example.com/jobs"),
        ("employer", .str "ACME"), ("reason", .str "wage dispute")]

/-- A blocklist entry whose url does not mention `example.com`. -/
def other_entry : JVal :=
  .obj [("url", .str "http://other.org/"),
        ("employer", .str "Other"), ("reason", .str "unrelated")]

/-- A second matching entry for `example.com`, with different detail fields
than `acme_entry`. -/
def second_entry : JVal :=
  .obj [("url", .str "http://example.com/careers"),
        ("employer", .str "Globex"), ("reason", .str "lockout")]

theorem scan_blocklist_eq_find (d : String) (l : List JVal) :
    scan_blocklist d l =
      match l.find? (entry_matches d) with
      | some e => (true, some (compose_dispute_info e))
      | none => (false, none) := by
  induction l with
  | nil => rfl
  | cons e rest ih =>
    simp only [scan_blocklist, List.find?]
    cases h : entry_matches d e with
    | true => simp [h]
    | false => simp [h, ih]

theorem scan_blocklist_skip (d : String) (pre tail : List JVal)
    (hpre : ∀ x ∈ pre, entry_matches d x = false) :
    scan_blocklist d (pre ++ tail) = scan_blocklist d tail := by
  induction pre with
  | nil => rfl
  | cons a as ih =>
    have ha : entry_matches d a = false := hpre a (List.mem_cons_self a as)
    simp only [List.cons_append, scan_blocklist, ha, if_false, Bool.false_eq_true]
    exact ih fun x hx => hpre x (List.mem_cons_of_mem a hx)

theorem opl_check_domain_scan (ctx : OplContext) (st : Nat) (root : JVal)
    (d : String) (entries : List JVal)
    (h1 : ctx.config.enabled = true)
    (h2 : (ctx.config.api_endpoint ++ "?format=json").length < 1024)
    (h3 : json_get_field root "blocklist" = some (JVal.arr entries)) :
    opl_check_domain ctx (.response ⟨st, some root⟩) d =
      match scan_blocklist d entries with
      | (true, info) => ⟨.SUCCESS, info, 1⟩
      | (false, _) => ⟨.NOTFOUND, none, 1⟩ := by
  have h1' : (ctx.config.enabled = false) = False := by simp [h1]
  have h2' : (1024 ≤ (ctx.config.api_endpoint ++ "?format=json").length) = False :=
    eq_false (not_le.mpr h2)
  simp only [opl_check_domain, h1', h2', if_false, h3]

theorem opl_check_domain_find (ctx : OplContext) (st : Nat) (root : JVal)
    (d : String) (entries : List JVal)
    (h1 : ctx.config.enabled = true)
    (h2 : (ctx.config.api_endpoint ++ "?format=json").length < 1024)
    (h3 : json_get_field root "blocklist" = some (JVal.arr entries)) :
    opl_check_domain ctx (.response ⟨st, some root⟩) d =
      match entries.find? (entry_matches d) with
      | some e => ⟨.SUCCESS, some (compose_dispute_info e), 1⟩
      | none => ⟨.NOTFOUND, none, 1⟩ := by
  rw [opl_check_domain_scan ctx st root d entries h1 h2 h3,
    scan_blocklist_eq_find]
  cases entries.find? (entry_matches d) <;> rfl

theorem opl_check_domain_failure_ne_success (ctx : OplContext) (d : String)
    (net : NetOutcome) (h : isLookupFailure net = true) :
    (opl_check_domain ctx net d).result ≠ .SUCCESS
    ∧ (opl_check_domain ctx net d).netCalls
        = (opl_check_domain ctx clear_net d).netCalls
    ∧ (opl_check_domain ctx clear_net d).result ≠ .SUCCESS := by
  by_cases he : ctx.config.enabled = false
  · have he' : (ctx.config.enabled = false) = True := eq_true he
    simp only [opl_check_domain, he', if_true]
    exact ⟨by simp, by trivial, by simp⟩
  · have he' : (ctx.config.enabled = false) = False := eq_false he
    by_cases hl : 1024 ≤ (ctx.config.api_endpoint ++ "?format=json").length
    · have hl' : (1024 ≤ (ctx.config.api_endpoint ++ "?format=json").length) = True :=
        eq_true hl
      simp only [opl_check_domain, he', hl', if_false, if_true]
      exact ⟨by simp, by trivial, by simp⟩
    · have hl' : (1024 ≤ (ctx.config.api_endpoint ++ "?format=json").length) = False :=
        eq_false hl
      cases net with
      | transportError =>
        simp only [opl_check_domain, he', hl', if_false, clear_net]
        exact ⟨by simp, by trivial, by simp [json_get_field,
          json_get_field.lookupField, scan_blocklist]⟩
      | response r =>
        have hb : r.body = none := by
          simpa [isLookupFailure, Option.isNone_iff_eq_none] using h
        simp only [opl_check_domain, he', hl', if_false, clear_net, hb]
        exact ⟨by simp, by trivial, by simp [json_get_field,
          json_get_field.lookupField, scan_blocklist]⟩

/-- C1: the claim states that `opl_modify_response` installs the synthesized
A record (owner = query name, type A, rdata = block-page IP bytes) into the
answer section, replacing the existing answer.  The code never does: its own
WARNING comment says it does not modify the response, and on every input the
message comes back unchanged.  At the concrete disputed response below the
call reports ISC_R_SUCCESS while the answer section still holds only the
genuine upstream record and no record with rdata [127, 0, 0, 1]. -/
theorem c1_modify_response_never_installs :
    opl_modify_response opl_default_ctx c1_msg "example.com."
      = (.SUCCESS, c1_msg)
    ∧ c1_msg.answer = [{ owner := "example.com.", rdata := [93, 184, 216, 34] }]
    ∧ parse_ipv4 opl_default_ctx.config.block_page_ip = some (127, 0, 0, 1)
    ∧ (∀ (ctx : OplContext) (msg : DnsMessage) (d : String),
        (opl_modify_response ctx msg d).2 = msg) := by
  refine ⟨rfl, rfl, rfl, ?_⟩
  intro ctx msg d
  unfold opl_modify_response
  cases hp : parse_ipv4 ctx.config.block_page_ip with
  | none => rfl
  | some v =>
    rcases msg with ⟨qs, ans⟩
    cases qs <;> rfl

/-- C2: the claim states that two evaluations of the same domain within the
cache TTL window issue at most one network call.  The code has no cache:
the context's `cache` pointer stays NULL forever and `cache_ttl` is never
read, so every enabled `opl_check_domain` call performs its own
`curl_easy_perform` — two back-to-back evaluations of `example.com` against
the default (enabled, cache_ttl = 300) context make two network calls. -/
theorem c2_no_cache_two_calls :
    (opl_check_domain opl_default_ctx clear_net "example.com").netCalls = 1
    ∧ (opl_check_domain opl_default_ctx clear_net "example.com").netCalls
        + (opl_check_domain opl_default_ctx clear_net "example.com").netCalls = 2
    ∧ (∀ cf : Option String, (opl_plugin_init cf).cache = none) :=
  ⟨rfl, rfl, fun _ => rfl⟩

/-- C3: on every lookup failure (transport error/timeout, or a body the JSON
parser rejects) the response hook leaves the message untouched, leaves
`*resultp` unwritten, returns NS_HOOK_CONTINUE, and behaves exactly as it
does for a Clear (empty-blocklist) lookup — failures never propagate past
the hook boundary. -/
theorem c3_hook_fail_open (p : Option OplContext) (net : NetOutcome)
    (m : DnsMessage) (h : isLookupFailure net = true) :
    opl_query_respond_any p net m = opl_query_respond_any p clear_net m
    ∧ (opl_query_respond_any p net m).message = m
    ∧ (opl_query_respond_any p net m).resultp = none
    ∧ (opl_query_respond_any p net m).hres = .CONTINUE := by
  cases p with
  | none => exact ⟨rfl, rfl, rfl, rfl⟩
  | some ctx =>
    by_cases he : ctx.config.enabled = false
    · have he' : (ctx.config.enabled = false) = True := eq_true he
      simp only [opl_query_respond_any, he', if_true]
      exact ⟨by trivial, by trivial, by trivial, by trivial⟩
    · have he' : (ctx.config.enabled = false) = False := eq_false he
      rcases m with ⟨qs, ans⟩
      cases qs with
      | nil =>
        simp only [opl_query_respond_any, he', if_false]
        exact ⟨by trivial, by trivial, by trivial, by trivial⟩
      | cons q rest =>
        by_cases hlen : 1024 < q.qname.length
        · have hlen' : (1024 < q.qname.length) = True := eq_true hlen
          simp only [opl_query_respond_any, he', hlen', if_false, if_true]
          exact ⟨by trivial, by trivial, by trivial, by trivial⟩
        · have hlen' : (1024 < q.qname.length) = False := eq_false hlen
          obtain ⟨h1, h2, h3⟩ :=
            opl_check_domain_failure_ne_success ctx q.qname net h
          have h1' : ((opl_check_domain ctx net q.qname).result
              = IscResult.SUCCESS) = False := eq_false h1
          have h3' : ((opl_check_domain ctx clear_net q.qname).result
              = IscResult.SUCCESS) = False := eq_false h3
          simp only [opl_query_respond_any, he', hlen', if_false, h1', h3']
          exact ⟨by rw [h2], by trivial, by trivial, by trivial⟩

/-- Witness for C3: the hook run on the default context, a transport-failed
lookup and a concrete response message, compared against the Clear run. -/
theorem c3_hook_fail_open_witness :
    opl_query_respond_any (some opl_default_ctx) .transportError c1_msg
      = opl_query_respond_any (some opl_default_ctx) clear_net c1_msg
    ∧ (opl_query_respond_any (some opl_default_ctx) .transportError c1_msg).message
        = c1_msg
    ∧ (opl_query_respond_any (some opl_default_ctx) .transportError c1_msg).resultp
        = none
    ∧ (opl_query_respond_any (some opl_default_ctx) .transportError c1_msg).hres
        = .CONTINUE :=
  c3_hook_fail_open (some opl_default_ctx) .transportError c1_msg rfl

/-- C4 counterexample: the claim states that synthesis errors out on a
non-IN query class and on a block IP failing strict dotted-quad parsing.
Both parts fail on the code: `opl_modify_response` never reads the query
class (CH succeeds), and `parse_ipv4` accepts `1.2.3.4x`, which strict
parsing rejects, so that configuration also succeeds. -/
theorem c4_counterexample :
    spec_strict_dotted_quad "1.2.3.4x" = false
    ∧ opl_modify_response ctx_bad_ip c1_msg "example.com." = (.SUCCESS, c1_msg)
    ∧ msg_ch.question = [{ qname := "example.com.", qclass := .CH }]
    ∧ DnsClass.CH ≠ DnsClass.IN
    ∧ opl_modify_response opl_default_ctx msg_ch "example.com." = (.SUCCESS, msg_ch) :=
  ⟨rfl, rfl, rfl, by decide, rfl⟩

/-- C4 as amended: `opl_modify_response` returns ISC_R_FAILURE exactly on a
block IP that `parse_ipv4` (sscanf-based, trailing characters ignored)
rejects; it performs no query-class check — the result code is invariant
under changing the class of the question. -/
theorem c4_no_class_check (ctx : OplContext) (msg : DnsMessage) (d : String) :
    (parse_ipv4 ctx.config.block_page_ip = none →
      opl_modify_response ctx msg d = (.FAILURE, msg))
    ∧ (∀ (n : String) (c c' : DnsClass) (qs : List Question) (ans : List ARecord),
        (opl_modify_response ctx { question := ⟨n, c⟩ :: qs, answer := ans } d).1
          = (opl_modify_response ctx { question := ⟨n, c'⟩ :: qs, answer := ans } d).1) := by
  constructor
  · intro hp
    unfold opl_modify_response
    simp only [hp]
  · intro n c c' qs ans
    unfold opl_modify_response
    cases parse_ipv4 ctx.config.block_page_ip <;> rfl

/-- Witness for C4 as amended: with the spec's out-of-range block IP
`999.1.1.1`, which even sscanf-based parsing rejects, the call fails. -/
theorem c4_no_class_check_witness :
    opl_modify_response ctx_999 c1_msg "example.com." = (.FAILURE, c1_msg) :=
  (c4_no_class_check ctx_999 c1_msg "example.com.").1 rfl

/-- C5 counterexample: the claim states that an HTTP status outside 200-299
yields a distinct UpstreamStatus error.  The code never reads the status:
a delivered 404 whose body is a well-formed blocklist matching the queried
domain is processed as a normal response and yields ISC_R_SUCCESS with a
composed detail (here `": "`, both fields absent). -/
theorem c5_counterexample :
    ¬(200 ≤ 404 ∧ 404 ≤ 299)
    ∧ opl_check_domain opl_default_ctx (.response ⟨404, some c5_root⟩) "example.com"
        = ⟨.SUCCESS, some ": ", 1⟩ :=
  ⟨by decide, rfl⟩

/-- C5 as amended: the HTTP status code of a delivered response is ignored
entirely — the outcome of `opl_check_domain` depends only on the body. -/
theorem c5_status_ignored (ctx : OplContext) (d : String) (s₁ s₂ : Nat)
    (b : Option JVal) :
    opl_check_domain ctx (.response ⟨s₁, b⟩) d
      = opl_check_domain ctx (.response ⟨s₂, b⟩) d := rfl

/-- C6 counterexample: the claim states that a disabled configuration makes
evaluation short-circuit to the Clear verdict.  The code short-circuits to
ISC_R_INVALIDARG — under the spec's own result-to-Verdict reading that is
Unknown (a refused lookup), not Clear — though indeed with no network
call. -/
theorem c6_counterexample :
    opl_check_domain opl_disabled_ctx .transportError "example.com"
      = ⟨.INVALIDARG, none, 0⟩
    ∧ spec_verdict_of_result
        (opl_check_domain opl_disabled_ctx .transportError "example.com").result
        ≠ Verdict.Clear :=
  ⟨rfl, by decide⟩

/-- C6 as amended: when `enabled` is false, `opl_check_domain` returns
ISC_R_INVALIDARG (Verdict Unknown, which every caller treats like Clear:
no change) with zero network calls, and the response hook short-circuits
before even calling it, leaving the message untouched with zero network
calls; there is no cache to touch. -/
theorem c6_disabled_short_circuit (ctx : OplContext) (net : NetOutcome)
    (m : DnsMessage) (d : String) (h : ctx.config.enabled = false) :
    opl_check_domain ctx net d = ⟨.INVALIDARG, none, 0⟩
    ∧ spec_verdict_of_result (opl_check_domain ctx net d).result = Verdict.Unknown
    ∧ opl_query_respond_any (some ctx) net m = ⟨.CONTINUE, m, none, 0⟩ := by
  have h' : (ctx.config.enabled = false) = True := eq_true h
  have hc : opl_check_domain ctx net d = ⟨.INVALIDARG, none, 0⟩ := by
    simp only [opl_check_domain, h', if_true]
  refine ⟨hc, ?_, ?_⟩
  · rw [hc]
    rfl
  · simp only [opl_query_respond_any, h', if_true]

/-- Witness for C6 as amended, on the disabled default context. -/
theorem c6_disabled_short_circuit_witness :
    opl_check_domain opl_disabled_ctx clear_net "example.com"
      = ⟨.INVALIDARG, none, 0⟩
    ∧ spec_verdict_of_result
        (opl_check_domain opl_disabled_ctx clear_net "example.com").result
        = Verdict.Unknown
    ∧ opl_query_respond_any (some opl_disabled_ctx) clear_net c1_msg
      = ⟨.CONTINUE, c1_msg, none, 0⟩ :=
  c6_disabled_short_circuit opl_disabled_ctx clear_net c1_msg "example.com" rfl

/-- C7 counterexample: the claim states that evaluation is case-insensitive
(and trailing-dot-insensitive) because the domain is normalized.  The code
matches with case-sensitive `strstr` and never normalizes: against the same
blocklist entry `http://example.com/`, `example.com` is found disputed
while `Example.COM` is found clear — two spellings of the same name yield
different verdicts (and there is no cache entry for either to hit). -/
theorem c7_counterexample :
    (opl_check_domain opl_default_ctx c7_net "example.com").result = .SUCCESS
    ∧ (opl_check_domain opl_default_ctx c7_net "Example.COM").result = .NOTFOUND :=
  ⟨rfl, rfl⟩

/-- C7 as amended: matching is exact, case-sensitive substring containment —
with a delivered blocklist, the verdict is Disputed precisely when some
entry's url field contains the queried domain string byte-for-byte; no
lowercasing or trailing-dot stripping happens anywhere. -/
theorem c7_exact_substring_match (ctx : OplContext) (st : Nat) (root : JVal)
    (entries : List JVal) (d : String)
    (h1 : ctx.config.enabled = true)
    (h2 : (ctx.config.api_endpoint ++ "?format=json").length < 1024)
    (h3 : json_get_field root "blocklist" = some (JVal.arr entries)) :
    (opl_check_domain ctx (.response ⟨st, some root⟩) d).result = .SUCCESS
      ↔ ∃ e ∈ entries, entry_matches d e = true := by
  rw [opl_check_domain_find ctx st root d entries h1 h2 h3]
  cases hf : entries.find? (entry_matches d) with
  | some e =>
    constructor
    · intro _
      exact ⟨e, List.mem_of_find?_eq_some hf, List.find?_some hf⟩
    · intro _
      rfl
  | none =>
    constructor
    · intro hcon
      exact absurd hcon (by decide)
    · rintro ⟨e, he, hp⟩
      exact absurd hp (by simpa using List.find?_eq_none.mp hf e he)

/-- Witness for C7 as amended, on a one-entry blocklist matching
`example.com`. -/
theorem c7_exact_substring_match_witness :
    ((opl_check_domain opl_default_ctx
        (.response ⟨200, some (.obj [("blocklist", .arr [acme_entry])])⟩)
        "example.com").result = .SUCCESS
      ↔ ∃ e ∈ [acme_entry], entry_matches "example.com" e = true) :=
  c7_exact_substring_match opl_default_ctx 200
    (.obj [("blocklist", .arr [acme_entry])]) [acme_entry] "example.com"
    rfl (by decide) rfl

/-- C8: on a delivered blocklist, a found match yields ISC_R_SUCCESS with
the detail string composed as employer + ": " + reason from the matched
entry, each field defaulting to the empty string when absent (or not a
string); no match yields ISC_R_NOTFOUND (Clear) with no detail. -/
theorem c8_detail_composition (ctx : OplContext) (st : Nat) (root : JVal)
    (entries : List JVal) (d : String)
    (h1 : ctx.config.enabled = true)
    (h2 : (ctx.config.api_endpoint ++ "?format=json").length < 1024)
    (h3 : json_get_field root "blocklist" = some (JVal.arr entries)) :
    (∀ e, entries.find? (entry_matches d) = some e →
        opl_check_domain ctx (.response ⟨st, some root⟩) d
          = ⟨.SUCCESS,
              some (((json_get_str_field e "employer").getD "") ++ ": "
                ++ ((json_get_str_field e "reason").getD "")), 1⟩)
    ∧ (entries.find? (entry_matches d) = none →
        opl_check_domain ctx (.response ⟨st, some root⟩) d
          = ⟨.NOTFOUND, none, 1⟩) := by
  constructor
  · intro e hf
    rw [opl_check_domain_find ctx st root d entries h1 h2 h3, hf]
    rfl
  · intro hf
    rw [opl_check_domain_find ctx st root d entries h1 h2 h3, hf]

/-- Witness for C8: the ACME entry (employer `ACME`, reason `wage dispute`)
is matched and the detail comes out as `ACME: wage dispute`. -/
theorem c8_detail_composition_witness :
    opl_check_domain opl_default_ctx
        (.response ⟨200, some (.obj [("blocklist",
          .arr [other_entry, acme_entry])])⟩) "example.com"
      = ⟨.SUCCESS, some "ACME: wage dispute", 1⟩ :=
  ((c8_detail_composition opl_default_ctx 200
      (.obj [("blocklist", .arr [other_entry, acme_entry])])
      [other_entry, acme_entry] "example.com" rfl (by decide) rfl).1
    acme_entry rfl).trans rfl

/-- C9: with several entries whose url contains the queried domain, the
detail is taken from the first matching entry in array order, and scanning
stops there — the outcome is independent of everything after that entry. -/
theorem c9_first_match_wins (ctx : OplContext) (st : Nat) (root₁ root₂ : JVal)
    (d : String) (pre post₁ post₂ : List JVal) (e : JVal)
    (h1 : ctx.config.enabled = true)
    (h2 : (ctx.config.api_endpoint ++ "?format=json").length < 1024)
    (h3 : json_get_field root₁ "blocklist" = some (JVal.arr (pre ++ e :: post₁)))
    (h4 : json_get_field root₂ "blocklist" = some (JVal.arr (pre ++ e :: post₂)))
    (hpre : ∀ x ∈ pre, entry_matches d x = false)
    (he : entry_matches d e = true) :
    opl_check_domain ctx (.response ⟨st, some root₁⟩) d
      = ⟨.SUCCESS, some (compose_dispute_info e), 1⟩
    ∧ opl_check_domain ctx (.response ⟨st, some root₁⟩) d
      = opl_check_domain ctx (.response ⟨st, some root₂⟩) d := by
  have hs : ∀ post : List JVal,
      scan_blocklist d (pre ++ e :: post)
        = (true, some (compose_dispute_info e)) := by
    intro post
    rw [scan_blocklist_skip d pre _ hpre]
    simp only [scan_blocklist, he, if_true]
  have k₁ := opl_check_domain_scan ctx st root₁ d (pre ++ e :: post₁) h1 h2 h3
  have k₂ := opl_check_domain_scan ctx st root₂ d (pre ++ e :: post₂) h1 h2 h4
  rw [hs post₁] at k₁
  rw [hs post₂] at k₂
  exact ⟨k₁, k₁.trans k₂.symm⟩

/-- Witness for C9: with a non-matching first entry, the ACME entry second
and a second matching entry (`Globex`) third, the detail comes from ACME,
and dropping the third entry does not change the outcome. -/
theorem c9_first_match_wins_witness :
    opl_check_domain opl_default_ctx
        (.response ⟨200, some (.obj [("blocklist",
          .arr ([other_entry] ++ acme_entry :: [second_entry]))])⟩) "example.com"
      = ⟨.SUCCESS, some (compose_dispute_info acme_entry), 1⟩
    ∧ opl_check_domain opl_default_ctx
        (.response ⟨200, some (.obj [("blocklist",
          .arr ([other_entry] ++ acme_entry :: [second_entry]))])⟩) "example.com"
      = opl_check_domain opl_default_ctx
          (.response ⟨200, some (.obj [("blocklist",
            .arr ([other_entry] ++ acme_entry :: []))])⟩) "example.com" :=
  c9_first_match_wins opl_default_ctx 200
    (.obj [("blocklist", .arr ([other_entry] ++ acme_entry :: [second_entry]))])
    (.obj [("blocklist", .arr ([other_entry] ++ acme_entry :: []))])
    "example.com" [other_entry] [second_entry] [] acme_entry
    rfl (by decide) rfl rfl (by decide) rfl

/-- C10: `opl_plugin_init` ignores its `config_file` argument entirely —
every input yields the same context, carrying the compiled-in defaults:
endpoint `https://api.onlinepicketline.org/api/blocklist`, block-page IP
`127.0.0.1`, timeout 5, cache TTL 300, enabled. -/
theorem c10_init_ignores_config_file (cf : Option String) :
    opl_plugin_init cf = opl_plugin_init none
    ∧ (opl_plugin_init cf).config
      = { api_endpoint := "https://api.onlinepicketline.org/api/blocklist"
          block_page_ip := "127.0.0.1"
          api_timeout := 5
          cache_ttl := 300
          enabled := true } :=
  ⟨rfl, rfl⟩
